import Mathlib

set_option linter.unusedVariables false

/-!
Shallow embedding of `state2slack.py`: a single-pass pipeline that reads a
configuration, fetches one Home Assistant entity state, resolves the state to
a configured Slack message, sends it, and optionally sends a summary message.
Machine-level effects (filesystem, HTTP) are abstracted into explicit inputs:
each run is a pure function of the responses the outside world would supply.
An uncaught Python exception is modelled with `Except.error`.
-/

/-- Python `str.lower` as a character-wise lowering of the string (the
configuration keys and states in play are ASCII). -/
def pyLower (s : String) : String := ⟨s.data.map Char.toLower⟩

/-- Python substring containment `pat in s`, used by the code to test whether
a Content-Type header value mentions `application/json`. -/
def strContains (s pat : String) : Bool := decide (pat.data <:+: s.data)

/-- Dataclass `HomeAssistant` (src/state2slack.py:12-25).  Its docstring says
of the last field: "insecure (bool, optional): True to ignore verifying the
SSL certificate, False otherwise. Defaults to False." -/
structure HomeAssistant where
  url : String
  access_token : String
  entity_id : String
  insecure : Bool := false
deriving DecidableEq

/-- Dataclass `SlackState` (src/state2slack.py:28-39): webhook URL, literal
message text, optional recipient id (default None). -/
structure SlackState where
  webhook_url : String
  message : String
  target_id : Option String := none
deriving DecidableEq

/-- Dataclass `SlackSummary` (src/state2slack.py:42-51). -/
structure SlackSummary where
  webhook_url : String
  target_id : Option String := none
deriving DecidableEq

/-- Dataclass `Config` (src/state2slack.py:54-65).  The Python field
`slack_states : dict[str, Optional[SlackState]]` is modelled as an
association list with the dict's (unique-key) lookup; a `none` value models
an explicit null entry. -/
structure Config where
  home_assistant : HomeAssistant
  slack_states : List (String × Option SlackState)
  slack_summary : Option SlackSummary := none
deriving DecidableEq

/-- Python `str(value)` on an optional string: `str(None)` is the literal
string "None". -/
def pyStr (v : Option String) : String :=
  match v with
  | none => "None"
  | some s => s

/-- Python `dict.get(key, default)` on the states mapping: the stored value
(which may itself be an explicit null) when the key is present, the supplied
default otherwise. -/
def pyDictGet (d : List (String × Option SlackState)) (key : String)
    (dflt : Option SlackState) : Option SlackState :=
  match d.lookup key with
  | some v => v
  | none => dflt

/-- Method `Config.slack_state` (src/state2slack.py:67-77):
`self.slack_states.get(str(value).lower(), self.slack_states.get('default'))`.
Note that only the probe value is lowered, never the mapping keys. -/
def Config.slack_state (c : Config) (value : Option String) : Option SlackState :=
  pyDictGet c.slack_states (pyLower (pyStr value)) (pyDictGet c.slack_states "default" none)

/-- Kinds of Python exceptions that the embedded code can let escape. -/
inductive PyError
  | jsonDecode
deriving DecidableEq

/-- One element of the JSON array returned by the states endpoint, as the code
reads it: `e.get('entity_id', '')` and `e.get('state')`, either key possibly
absent. -/
structure Entity where
  entity_id : Option String := none
  state : Option String := none
deriving DecidableEq

/-- Body of a fetch response: either text that is not valid JSON (so that
`response.json()` raises), or a JSON array of objects. -/
inductive FetchBody
  | invalid
  | entities (es : List Entity)
deriving DecidableEq

/-- Response to the state-fetch GET: status code, the Content-Type header
(`none` models an absent header, read back as `''` by
`response.headers.get('Content-Type', '')`), and the body. -/
structure FetchResponse where
  status_code : Nat
  content_type : Option String
  body : FetchBody
deriving DecidableEq

/-- Outcome of the `requests.get` call inside the try block: either it raised
(any transport error) or it returned a response. -/
inductive FetchOutcome
  | transportError
  | response (r : FetchResponse)
deriving DecidableEq

/-- Function `get_entity_state` (src/state2slack.py:149-183).  The try block
covers only the `requests.get` call and a debug log; the status code and
Content-Type checks return None on mismatch; `response.json()` on line 177 is
evaluated outside the try block, so a JSON parse failure escapes as an
exception.  The entity search is `next((e for e in response.json() if
config.entity_id == e.get('entity_id', '')), None)` and the result is
`entity.get('state')`. -/
def get_entity_state (config : HomeAssistant) (outcome : FetchOutcome) :
    Except PyError (Option String) :=
  match outcome with
  | FetchOutcome.transportError => Except.ok none
  | FetchOutcome.response response =>
    if response.status_code ≠ 200 then Except.ok none
    else
      let content_type := response.content_type.getD ""
      if strContains content_type "application/json" = false then Except.ok none
      else
        match response.body with
        | FetchBody.invalid => Except.error PyError.jsonDecode
        | FetchBody.entities es =>
          match es.find? (fun e => config.entity_id == e.entity_id.getD "") with
          | none => Except.ok none
          | some entity => Except.ok entity.state

/-- Value of the `verify` keyword passed to `requests.get` in
`get_entity_state` (src/state2slack.py:162): `verify=config.insecure`. -/
def fetchRequestVerify (config : HomeAssistant) : Bool := config.insecure

/-- Semantics of the `verify` argument of the requests library (external
interface): TLS certificate verification is skipped exactly when `verify` is
false. -/
def tlsVerificationSkipped (verify : Bool) : Bool := !verify

/-- Body of a webhook response: either text that is not valid JSON (so that
`response.json()` raises), or a JSON object whose `ok` member, as read by
`.get('ok', False)`, is the given boolean when present. -/
inductive WebhookBody
  | invalid
  | object (ok : Option Bool)
deriving DecidableEq

/-- Response to the webhook POST. -/
structure WebhookResponse where
  status_code : Nat
  content_type : Option String
  body : WebhookBody
deriving DecidableEq

/-- Outcome of the `requests.post` call inside the try block. -/
inductive WebhookOutcome
  | transportError
  | response (r : WebhookResponse)
deriving DecidableEq

/-- JSON payload the code posts to a webhook: a `message` member and an
optional `target_id` member (absent when `none`). -/
structure WebhookPayload where
  message : String
  target_id : Option String
deriving DecidableEq

/-- Function `post_slack_webhook` (src/state2slack.py:186-214).  Transport
errors, non-200 statuses and non-JSON content types return False; on the
remaining path `response.json().get('ok', False)` is evaluated outside the
try block, so a JSON parse failure escapes as an exception. -/
def post_slack_webhook (url : String) (json : WebhookPayload)
    (outcome : WebhookOutcome) : Except PyError Bool :=
  match outcome with
  | WebhookOutcome.transportError => Except.ok false
  | WebhookOutcome.response response =>
    if response.status_code ≠ 200 then Except.ok false
    else
      let content_type := response.content_type.getD ""
      if strContains content_type "application/json" = false then Except.ok false
      else
        match response.body with
        | WebhookBody.invalid => Except.error PyError.jsonDecode
        | WebhookBody.object ok => Except.ok (ok.getD false)

/-- Payload built by `send_slack_state_message` (src/state2slack.py:226-228):
`payload = dict of message` plus `target_id` when configured. -/
def statePayload (config : SlackState) : WebhookPayload :=
  { message := config.message, target_id := config.target_id }

/-- Function `send_slack_state_message` (src/state2slack.py:217-229). -/
def send_slack_state_message (config : SlackState) (outcome : WebhookOutcome) :
    Except PyError Bool :=
  post_slack_webhook config.webhook_url (statePayload config) outcome

/-- Payload built by `send_slack_summary_message` (src/state2slack.py:242-244). -/
def summaryPayload (config : SlackSummary) (message : String) : WebhookPayload :=
  { message := message, target_id := config.target_id }

/-- Function `send_slack_summary_message` (src/state2slack.py:232-245). -/
def send_slack_summary_message (config : SlackSummary) (message : String)
    (outcome : WebhookOutcome) : Except PyError Bool :=
  post_slack_webhook config.webhook_url (summaryPayload config message) outcome

/-- Function `build_summary_message` (src/state2slack.py:248-264). -/
def build_summary_message (config : SlackState) (success : Bool) : String :=
  let summary :=
    if success then "Successfully sent \"" ++ config.message ++ "\""
    else "Failed to send \"" ++ config.message ++ "\""
  match config.target_id with
  | some t => summary ++ " to " ++ t
  | none => summary

/-- Mode in which a log sink opens its file. -/
inductive FileMode
  | append
  | truncate
deriving DecidableEq

/-- Function `init_logger` (src/state2slack.py:96-113): it records whether the
dated log file existed before the handlers were installed and returns that
flag; `logging.FileHandler(file)` is constructed with no mode argument, whose
library default opens the file in append mode.  The filesystem is abstracted
to the pre-existence bit supplied by the environment. -/
def init_logger (fileAlreadyExists : Bool) : Bool × FileMode :=
  (fileAlreadyExists, FileMode.append)

/-- Network calls observable at the process boundary, in order of issuance. -/
inductive NetCall
  | fetch
  | sendState
  | sendSummary
deriving DecidableEq

/-- Abstract run environment: everything the outside world supplies to one
invocation of `main` (filesystem state, parsed CLI arguments, the outcome of
`load_config`, and the responses each HTTP call would receive). -/
structure Env where
  logFileExists : Bool
  loadedConfig : Option Config
  stateOverride : Option String
  fetchOutcome : FetchOutcome
  stateSendOutcome : WebhookOutcome
  summarySendOutcome : WebhookOutcome

/-- Observable result of one run of `main`: the network calls issued, the
value the resolver was invoked on (if reached), the payload posted by the
state-message send (if reached), the summary string built (if reached),
whether an exception escaped `main`, and the process exit status. -/
structure RunResult where
  calls : List NetCall
  resolverInput : Option (Option String)
  statePost : Option WebhookPayload
  summaryLogged : Option String
  raised : Bool
  exitStatus : Nat
deriving DecidableEq

/-- Tail of `main` from the resolver call onwards (src/state2slack.py:293-310):
resolve the Slack state, return early when none, otherwise send the state
message, build and log the summary, and send the summary when configured. -/
def mainAfterState (config : Config) (calls : List NetCall)
    (entity_state : Option String) (env : Env) : RunResult :=
  match config.slack_state entity_state with
  | none =>
    { calls := calls, resolverInput := some entity_state, statePost := none,
      summaryLogged := none, raised := false, exitStatus := 0 }
  | some slack_state =>
    match send_slack_state_message slack_state env.stateSendOutcome with
    | Except.error _ =>
      { calls := calls ++ [NetCall.sendState], resolverInput := some entity_state,
        statePost := some (statePayload slack_state), summaryLogged := none,
        raised := true, exitStatus := 1 }
    | Except.ok success =>
      match config.slack_summary with
      | none =>
        { calls := calls ++ [NetCall.sendState], resolverInput := some entity_state,
          statePost := some (statePayload slack_state),
          summaryLogged := some (build_summary_message slack_state success),
          raised := false, exitStatus := 0 }
      | some sc =>
        match send_slack_summary_message sc (build_summary_message slack_state success)
            env.summarySendOutcome with
        | Except.error _ =>
          { calls := calls ++ [NetCall.sendState, NetCall.sendSummary],
            resolverInput := some entity_state,
            statePost := some (statePayload slack_state),
            summaryLogged := some (build_summary_message slack_state success),
            raised := true, exitStatus := 1 }
        | Except.ok _ =>
          { calls := calls ++ [NetCall.sendState, NetCall.sendSummary],
            resolverInput := some entity_state,
            statePost := some (statePayload slack_state),
            summaryLogged := some (build_summary_message slack_state success),
            raised := false, exitStatus := 0 }

/-- Function `main` (src/state2slack.py:267-310) over an abstract environment:
abort when today's log file already existed, abort when the configuration
failed to load, fetch the entity state unless an override was supplied, then
continue with `mainAfterState`.  An exception escaping `main` is recorded as
`raised := true` with the interpreter's exit status 1. -/
def mainRun (env : Env) : RunResult :=
  if (init_logger env.logFileExists).1 then
    { calls := [], resolverInput := none, statePost := none,
      summaryLogged := none, raised := false, exitStatus := 0 }
  else
    match env.loadedConfig with
    | none =>
      { calls := [], resolverInput := none, statePost := none,
        summaryLogged := none, raised := false, exitStatus := 0 }
    | some config =>
      match env.stateOverride with
      | none =>
        match get_entity_state config.home_assistant env.fetchOutcome with
        | Except.error _ =>
          { calls := [NetCall.fetch], resolverInput := none, statePost := none,
            summaryLogged := none, raised := true, exitStatus := 1 }
        | Except.ok entity_state => mainAfterState config [NetCall.fetch] entity_state env
      | some s => mainAfterState config [] (some s) env

/-- Acceptance shape named by the webhook claim: a response with status 200, a
Content-Type mentioning application/json, and a JSON object body whose ok
flag is present and true. -/
def webhookAccepted : WebhookOutcome → Prop
  | WebhookOutcome.transportError => False
  | WebhookOutcome.response r =>
    r.status_code = 200
    ∧ strContains (r.content_type.getD "") "application/json" = true
    ∧ r.body = WebhookBody.object (some true)

/-- Failure shapes the webhook claim enumerates: a transport error, a bad
status, a wrong content type, or a JSON object body whose ok flag is missing
or not true. -/
def webhookListedFailure : WebhookOutcome → Prop
  | WebhookOutcome.transportError => True
  | WebhookOutcome.response r =>
    r.status_code ≠ 200
    ∨ strContains (r.content_type.getD "") "application/json" = false
    ∨ ∃ okv, r.body = WebhookBody.object okv ∧ okv ≠ some true

/-- Example Home Assistant settings for concrete instances. -/
def haEx : HomeAssistant :=
  { url := "https://ha.example", access_token := "token", entity_id := "person.alice" }

/-- Example state-message target with no recipient id. -/
def msgHome : SlackState :=
  { webhook_url := "https://hooks.example/home", message := "Welcome back!", target_id := none }

/-- Example default target with a recipient id. -/
def msgDefault : SlackState :=
  { webhook_url := "https://hooks.example/d", message := "Unknown state", target_id := some "U123" }

/-- Example target stored under the literal key "none". -/
def msgNone : SlackState :=
  { webhook_url := "https://hooks.example/n", message := "State unavailable", target_id := none }

/-- Benign environment in which every HTTP call would fail at transport level. -/
def envPlain : Env :=
  { logFileExists := false, loadedConfig := none, stateOverride := none,
    fetchOutcome := FetchOutcome.transportError,
    stateSendOutcome := WebhookOutcome.transportError,
    summarySendOutcome := WebhookOutcome.transportError }

/-- Configuration with lower-cased keys "home" and "default", as in the spec
scenario. -/
def cfgHomeDefault : Config :=
  { home_assistant := haEx,
    slack_states := [("home", some msgHome), ("default", some msgDefault)] }

/-- Configuration whose only key is the upper-cased "HOME". -/
def cfgCaseMiss : Config :=
  { home_assistant := haEx, slack_states := [("HOME", some msgHome)] }

/-- Configuration mapping "home" to an explicit null entry, with a default. -/
def cfgNullHome : Config :=
  { home_assistant := haEx,
    slack_states := [("home", none), ("default", some msgDefault)] }

/-- Configuration with an entry under the literal key "none" and a default. -/
def cfgNoneKey : Config :=
  { home_assistant := haEx,
    slack_states := [("none", some msgNone), ("default", some msgDefault)] }

/-- Environment of a second run on the same day: the dated log file exists. -/
def envC5 : Env := { envPlain with logFileExists := true }

/-- Environment whose state fetch returns HTTP 200 with Content-Type
application/json but a body that is not valid JSON. -/
def envC6 : Env :=
  { envPlain with
    loadedConfig := some cfgHomeDefault,
    fetchOutcome := FetchOutcome.response
      { status_code := 200, content_type := some "application/json",
        body := FetchBody.invalid } }

/-- Environment in which the CLI supplied the state override "vacation". -/
def envC8 : Env :=
  { envPlain with
    loadedConfig := some cfgHomeDefault, stateOverride := some "vacation" }

/-- Helper: the webhook post reports success exactly on the accepted shape. -/
theorem post_ok_iff (url : String) (p : WebhookPayload) (o : WebhookOutcome) :
    post_slack_webhook url p o = Except.ok true ↔ webhookAccepted o := by
  cases o with
  | transportError => simp [post_slack_webhook, webhookAccepted]
  | response r =>
    obtain ⟨sc, ct, body⟩ := r
    by_cases h200 : sc = 200
    · cases hct : strContains (ct.getD "") "application/json" with
      | false => simp [post_slack_webhook, webhookAccepted, h200, hct]
      | true =>
        cases body with
        | invalid => simp [post_slack_webhook, webhookAccepted, h200, hct]
        | object okv =>
          cases okv with
          | none => simp [post_slack_webhook, webhookAccepted, h200, hct]
          | some b => cases b <;> simp [post_slack_webhook, webhookAccepted, h200, hct]
    · simp [post_slack_webhook, webhookAccepted, h200]

/-- Helper: each failure shape the claim enumerates makes the webhook post
return false (not raise). -/
theorem post_listed_false (url : String) (p : WebhookPayload) (o : WebhookOutcome)
    (h : webhookListedFailure o) : post_slack_webhook url p o = Except.ok false := by
  cases o with
  | transportError => rfl
  | response r =>
    obtain ⟨sc, ct, body⟩ := r
    simp only [webhookListedFailure] at h
    by_cases h200 : sc = 200
    · cases hct : strContains (ct.getD "") "application/json" with
      | false => simp [post_slack_webhook, h200, hct]
      | true =>
        rcases h with h1 | h2 | ⟨okv, hb, hok⟩
        · exact absurd h200 h1
        · rw [hct] at h2; exact absurd h2 (by simp)
        · subst hb
          cases okv with
          | none => simp [post_slack_webhook, h200, hct]
          | some b =>
            cases b with
            | false => simp [post_slack_webhook, h200, hct]
            | true => exact absurd rfl hok
    · simp [post_slack_webhook, h200]

/-- Helper: the resolver input recorded by the tail of main is always the
entity state it was entered with. -/
theorem mainAfterState_resolverInput (c : Config) (calls : List NetCall)
    (st : Option String) (env : Env) :
    (mainAfterState c calls st env).resolverInput = some st := by
  unfold mainAfterState
  split
  · rfl
  · split
    · rfl
    · split
      · rfl
      · split <;> rfl

/-- Helper: the tail of main only appends send calls, never a fetch. -/
theorem mainAfterState_calls (c : Config) (calls : List NetCall)
    (st : Option String) (env : Env) :
    ∃ extra, (mainAfterState c calls st env).calls = calls ++ extra
      ∧ NetCall.fetch ∉ extra := by
  unfold mainAfterState
  split
  · exact ⟨[], by simp, by simp⟩
  · split
    · exact ⟨[NetCall.sendState], rfl, by simp⟩
    · split
      · exact ⟨[NetCall.sendState], rfl, by simp⟩
      · split
        · exact ⟨[NetCall.sendState, NetCall.sendSummary], rfl, by simp⟩
        · exact ⟨[NetCall.sendState, NetCall.sendSummary], rfl, by simp⟩

/-- C1: the claim (and the dataclass docstring) say that insecure = true makes
the fetch skip TLS certificate verification and that the default
insecure = false verifies.  The code passes `verify=config.insecure` straight
through, and in the requests library verification is skipped when `verify` is
false, so with insecure = true verification is performed and with the default
it is skipped: the semantics are inverted at every configuration. -/
theorem C1_insecure_flag_inverted :
    fetchRequestVerify { haEx with insecure := true } = true
    ∧ tlsVerificationSkipped (fetchRequestVerify { haEx with insecure := true }) = false
    ∧ haEx.insecure = false
    ∧ tlsVerificationSkipped (fetchRequestVerify haEx) = true := by
  exact ⟨rfl, rfl, rfl, rfl⟩

/-- C2 counterexample: in the configuration whose only mapping key is "HOME",
the state "home" matches that key case-insensitively (the two agree after
lowering), and the entry stored there is `msgHome`, yet the resolver returns
none: only the probe is lowered, never the keys, so the claimed
case-insensitive match fails on non-lower-cased keys. -/
theorem C2_resolver_counterexample :
    pyLower "home" = pyLower "HOME"
    ∧ cfgCaseMiss.slack_states.lookup "HOME" = some (some msgHome)
    ∧ cfgCaseMiss.slack_state (some "home") = none := by
  exact ⟨by decide, by decide, by decide⟩

/-- C2 (amended): if the lower-cased state string is literally a mapping key,
the resolver returns exactly that entry (for lower-cased keys this realizes
the case-insensitive match); for every other string it returns the entry
under key "default" when that key exists, else none. -/
theorem C2_resolver_amended (c : Config) (v : Option String) :
    (∀ e, c.slack_states.lookup (pyLower (pyStr v)) = some e → c.slack_state v = e)
    ∧ (c.slack_states.lookup (pyLower (pyStr v)) = none →
        c.slack_state v = (c.slack_states.lookup "default").getD none) := by
  constructor
  · intro e h
    unfold Config.slack_state pyDictGet
    rw [h]
  · intro h
    unfold Config.slack_state pyDictGet
    rw [h]
    cases hd : c.slack_states.lookup "default" <;> simp [hd]

/-- Witness for C2 (amended): the spec scenario state "Home" resolves to the
entry under the lower-cased key "home". -/
theorem C2_resolver_amended_witness :
    cfgHomeDefault.slack_state (some "Home") = some msgHome := by
  exact (C2_resolver_amended cfgHomeDefault (some "Home")).1 (some msgHome) (by decide)

/-- C3: transport errors, non-200 statuses, non-JSON content types and a
missing entity all yield none as the claim says, but a 200 response whose
Content-Type mentions application/json and whose body is not valid JSON makes
`response.json()` - evaluated outside the try block - raise, so
`get_entity_state` raises instead of returning none, violating the claim's
"never raises". -/
theorem C3_fetch_raises_on_invalid_json :
    get_entity_state haEx FetchOutcome.transportError = Except.ok none
    ∧ get_entity_state haEx (FetchOutcome.response
        { status_code := 500, content_type := some "application/json",
          body := FetchBody.invalid }) = Except.ok none
    ∧ get_entity_state haEx (FetchOutcome.response
        { status_code := 200, content_type := some "text/html",
          body := FetchBody.invalid }) = Except.ok none
    ∧ get_entity_state haEx (FetchOutcome.response
        { status_code := 200, content_type := some "application/json",
          body := FetchBody.entities [] }) = Except.ok none
    ∧ get_entity_state haEx (FetchOutcome.response
        { status_code := 200, content_type := some "application/json",
          body := FetchBody.invalid }) = Except.error PyError.jsonDecode := by
  exact ⟨rfl, rfl, rfl, rfl, rfl⟩

/-- C4: the state-message send reports true exactly when the webhook response
has status 200, a Content-Type mentioning application/json, and a JSON object
body whose ok flag is true; every transport error, bad status, wrong content
type, or missing/false ok flag makes it return false rather than raise, and
when such a failed send is reached inside main the summary is still built
(with the "Failed to send" wording). -/
theorem C4_webhook_success_criteria (cfg : SlackState) (o : WebhookOutcome) :
    (send_slack_state_message cfg o = Except.ok true ↔ webhookAccepted o)
    ∧ (webhookListedFailure o → send_slack_state_message cfg o = Except.ok false)
    ∧ (∀ c calls st env, env.stateSendOutcome = o → c.slack_state st = some cfg →
        webhookListedFailure o →
        (mainAfterState c calls st env).summaryLogged
          = some (build_summary_message cfg false)) := by
  refine ⟨post_ok_iff _ _ _, fun h => post_listed_false _ _ _ h, ?_⟩
  intro c calls st env ho hres h
  have hsend : send_slack_state_message cfg env.stateSendOutcome = Except.ok false := by
    rw [ho]; exact post_listed_false _ _ _ h
  unfold mainAfterState
  simp only [hres, hsend]
  split
  · rfl
  · split <;> rfl

/-- Witness for C4: a transport error is a listed failure and the send then
returns false. -/
theorem C4_webhook_success_criteria_witness :
    send_slack_state_message msgDefault WebhookOutcome.transportError = Except.ok false := by
  exact (C4_webhook_success_criteria msgDefault WebhookOutcome.transportError).2.1 (by trivial)

/-- C5: on a day whose dated log file already exists, init_logger returns true
(and the log sink is opened in append mode, preserving prior content), and
main aborts at once: the run issues no network call, reaches neither the
resolver nor any send, raises nothing, and exits with status 0. -/
theorem C5_same_day_abort (env : Env) (h : env.logFileExists = true) :
    (init_logger env.logFileExists).1 = true
    ∧ (init_logger env.logFileExists).2 = FileMode.append
    ∧ mainRun env =
      { calls := [], resolverInput := none, statePost := none,
        summaryLogged := none, raised := false, exitStatus := 0 } := by
  refine ⟨by simp [init_logger, h], rfl, ?_⟩
  unfold mainRun
  simp [init_logger, h]

/-- Witness for C5 at the concrete second-run environment. -/
theorem C5_same_day_abort_witness :
    mainRun envC5 =
      { calls := [], resolverInput := none, statePost := none,
        summaryLogged := none, raised := false, exitStatus := 0 } := by
  exact (C5_same_day_abort envC5 rfl).2.2

/-- C6: the claim says no exception ever reaches the process boundary and
every terminating path exits 0, but in the environment whose state fetch
returns HTTP 200 with an application/json Content-Type and a body that is not
valid JSON, the JSON parse error raised by `response.json()` escapes `main`
and the process exits with status 1. -/
theorem C6_exception_reaches_boundary :
    mainRun envC6 =
      { calls := [NetCall.fetch], resolverInput := none, statePost := none,
        summaryLogged := none, raised := true, exitStatus := 1 } := by
  decide

/-- C7: the summary string is exactly "Successfully sent \"<message>\"" on
success and "Failed to send \"<message>\"" on failure, with " to <target id>"
appended precisely when the target's destination id is present. -/
theorem C7_summary_format (cfg : SlackState) (success : Bool) :
    build_summary_message cfg success =
      (if success then "Successfully sent \"" ++ cfg.message ++ "\""
       else "Failed to send \"" ++ cfg.message ++ "\"")
      ++ (match cfg.target_id with
          | some t => " to " ++ t
          | none => "") := by
  unfold build_summary_message
  cases cfg.target_id with
  | none => exact (String.append_empty _).symm
  | some t => exact String.append_assoc _ " to " t

/-- C8: whenever a manual state override is supplied, the run performs no
fetch call, and if the resolver is reached its input is exactly the override
string. -/
theorem C8_override_skips_fetch (env : Env) (s : String)
    (h : env.stateOverride = some s) :
    NetCall.fetch ∉ (mainRun env).calls
    ∧ ∀ v, (mainRun env).resolverInput = some v → v = some s := by
  unfold mainRun
  cases hl : env.logFileExists with
  | true => simp [init_logger, hl]
  | false =>
    cases hc : env.loadedConfig with
    | none => simp [init_logger, hl, hc]
    | some config =>
      simp only [init_logger, hl, hc, h, Bool.false_eq_true, if_false]
      obtain ⟨extra, he, hf⟩ := mainAfterState_calls config [] (some s) env
      refine ⟨?_, ?_⟩
      · rw [he]; simpa using hf
      · intro v hv
        rw [mainAfterState_resolverInput] at hv
        exact Option.some_inj.mp hv.symm

/-- Witness for C8 at a concrete environment with override "vacation". -/
theorem C8_override_skips_fetch_witness :
    NetCall.fetch ∉ (mainRun envC8).calls := by
  exact (C8_override_skips_fetch envC8 "vacation" rfl).1

/-- C9: a mapping key equal to the lowered state but carrying an explicit null
entry makes the resolver return none rather than fall through to "default",
and the run then sends no message at all. -/
theorem C9_null_entry_shadows_default (c : Config) (v : Option String)
    (h : c.slack_states.lookup (pyLower (pyStr v)) = some none) :
    c.slack_state v = none
    ∧ ∀ env calls, mainAfterState c calls v env =
        { calls := calls, resolverInput := some v, statePost := none,
          summaryLogged := none, raised := false, exitStatus := 0 } := by
  have h1 : c.slack_state v = none := by
    unfold Config.slack_state pyDictGet
    rw [h]
  refine ⟨h1, fun env calls => ?_⟩
  unfold mainAfterState
  simp [h1]

/-- Witness for C9: key "home" maps to null while a default exists; the state
"Home" resolves to nothing and the pipeline tail does nothing. -/
theorem C9_null_entry_shadows_default_witness :
    cfgNullHome.slack_state (some "Home") = none
    ∧ mainAfterState cfgNullHome [] (some "Home") envPlain =
      { calls := [], resolverInput := some (some "Home"), statePost := none,
        summaryLogged := none, raised := false, exitStatus := 0 } := by
  have H := C9_null_entry_shadows_default cfgNullHome (some "Home") (by decide)
  exact ⟨H.1, H.2 envPlain []⟩

/-- C10: an absent entity state is looked up under the literal key "none"
(via str(None).lower()), and when the mapping holds such an entry the
resolver returns it - bypassing "default" - and its message payload is what
the state send posts. -/
theorem C10_none_key_entry (c : Config) (entry : SlackState)
    (h : c.slack_states.lookup "none" = some (some entry)) :
    pyLower (pyStr none) = "none"
    ∧ c.slack_state none = some entry
    ∧ ∀ env calls,
        (mainAfterState c calls none env).statePost = some (statePayload entry)
        ∧ NetCall.sendState ∈ (mainAfterState c calls none env).calls := by
  have hL : pyLower (pyStr none) = "none" := by decide
  have h2 : c.slack_state none = some entry := by
    unfold Config.slack_state pyDictGet
    rw [hL, h]
  refine ⟨hL, h2, fun env calls => ?_⟩
  unfold mainAfterState
  simp only [h2]
  split
  · exact ⟨rfl, by simp⟩
  · split
    · exact ⟨rfl, by simp⟩
    · split
      · exact ⟨rfl, by simp⟩
      · exact ⟨rfl, by simp⟩

/-- Witness for C10: with an entry under key "none" and a default configured,
the absent state resolves to the "none" entry and its payload is posted. -/
theorem C10_none_key_entry_witness :
    cfgNoneKey.slack_state none = some msgNone
    ∧ (mainAfterState cfgNoneKey [NetCall.fetch] none envPlain).statePost
        = some (statePayload msgNone) := by
  have H := C10_none_key_entry cfgNoneKey msgNone (by decide)
  exact ⟨H.2.1, (H.2.2 envPlain [NetCall.fetch]).1⟩
